import Mathlib

/-!
Verification of the KYC orchestration core of the kyc-aura-scan repository.

The engine (`MockKYCEngine` in `src/utils/mockEngine.ts`) keeps a map of
sessions and a map of pending timers.  We embed its data model and
operations shallowly: timestamps, randomness and the DOM environment become
explicit parameters; the `Map` objects become association lists with the
replace-in-place semantics of JavaScript `Map.set`; throwing code returns
`Except`.  Scores are integers (`Math.round` results) and the intermediate
score computations are rationals.
-/

/-- `'pending' | 'processing' | 'completed' | 'failed'` for a check. -/
inductive CheckStatus where
  | pending
  | processing
  | completed
  | failed
deriving DecidableEq

/-- `'initializing' | 'processing' | 'completed' | 'failed'` for a session. -/
inductive SessionStatus where
  | initializing
  | processing
  | completed
  | failed
deriving DecidableEq

/-- `'PASS' | 'RETRY' | 'FAIL'`. -/
inductive Decision where
  | PASS
  | RETRY
  | FAIL
deriving DecidableEq

/-- `'info' | 'warning' | 'error' | 'success'`. -/
inductive EventType where
  | info
  | warning
  | error
  | success
deriving DecidableEq

/-- `'upload' | 'live'`. -/
inductive SessionType where
  | upload
  | live
deriving DecidableEq

/-- One entry of a check's `timeline` array. -/
structure TimelinePoint where
  timestamp : Int
  score : Int
deriving DecidableEq

/-- The `KYCCheck` interface. -/
structure KYCCheck where
  id : String
  name : String
  description : String
  score : Int
  maxScore : Int
  status : CheckStatus
  timeline : List TimelinePoint
deriving DecidableEq

/-- The `SessionEvent` interface. -/
structure SessionEvent where
  timestamp : Int
  type : EventType
  message : String
  checkId : Option String
deriving DecidableEq

/-- One entry of a scenario's `scorePatterns` record. -/
structure ScorePattern where
  min : Rat
  max : Rat
  volatility : Rat
deriving DecidableEq

/-- A scenario event, `Omit<SessionEvent, 'timestamp'>`. -/
structure ScenarioEvent where
  type : EventType
  message : String
  checkId : Option String
deriving DecidableEq

/-- The `DemoScenario` interface; `scorePatterns` becomes an association list. -/
structure DemoScenario where
  id : String
  name : String
  description : String
  targetDecision : Decision
  scorePatterns : List (String × ScorePattern)
  events : List ScenarioEvent
deriving DecidableEq

/-- The `KYCSession` interface. -/
structure KYCSession where
  id : String
  type : SessionType
  status : SessionStatus
  scenario : DemoScenario
  checks : List KYCCheck
  events : List SessionEvent
  finalScore : Int
  decision : Decision
  reasoning : List String
  startTime : Int
  endTime : Option Int
deriving DecidableEq

/-- JavaScript `Math.round` on the (rational) values arising here:
round half up, `Math.round(x) = ⌊x + 0.5⌋`. -/
def jsRound (q : Rat) : Int := ⌊q + 1 / 2⌋

/-- One entry of the `DEFAULT_CHECKS` array, `Omit<KYCCheck, 'score' | 'timeline'>`. -/
structure CheckDefinition where
  id : String
  name : String
  description : String
  maxScore : Int
  status : CheckStatus
deriving DecidableEq

/-- The `DEFAULT_CHECKS` configuration array (seven checks). -/
def DEFAULT_CHECKS : List CheckDefinition :=
  [ { id := "active-liveness", name := "Active Liveness",
      description := "Challenge-response verification to detect live person",
      maxScore := 100, status := .pending },
    { id := "passive-forensics", name := "Passive Forensics",
      description := "AI-powered deepfake and manipulation detection",
      maxScore := 100, status := .pending },
    { id := "head-pose", name := "Head Pose (3D)",
      description := "3D head tracking and pose estimation analysis",
      maxScore := 100, status := .pending },
    { id := "micro-dynamics", name := "Micro-Dynamics",
      description := "Natural facial micro-expressions and movements",
      maxScore := 100, status := .pending },
    { id := "lip-audio-sync", name := "Lip-Audio Sync",
      description := "Correlation between lip movement and speech",
      maxScore := 100, status := .pending },
    { id := "temporal-integrity", name := "Temporal Integrity",
      description := "Consistency analysis across video timeline",
      maxScore := 100, status := .pending },
    { id := "face-match", name := "Face Match vs ID",
      description := "Identity verification against provided documents",
      maxScore := 100, status := .pending } ]

/-- The `genuine-pass` entry of `DEMO_SCENARIOS`. -/
def genuinePass : DemoScenario :=
  { id := "genuine-pass", name := "Genuine Pass",
    description := "Clean verification with high confidence scores",
    targetDecision := .PASS,
    scorePatterns :=
      [ ("active-liveness", { min := 85, max := 95, volatility := 0.1 }),
        ("passive-forensics", { min := 88, max := 96, volatility := 0.08 }),
        ("head-pose", { min := 82, max := 92, volatility := 0.12 }),
        ("micro-dynamics", { min := 79, max := 89, volatility := 0.15 }),
        ("lip-audio-sync", { min := 86, max := 94, volatility := 0.1 }),
        ("temporal-integrity", { min := 84, max := 93, volatility := 0.09 }),
        ("face-match", { min := 91, max := 97, volatility := 0.06 }) ],
    events :=
      [ { type := .info, message := "Face detected in frame", checkId := none },
        { type := .success, message := "Liveness challenge completed successfully", checkId := none },
        { type := .info, message := "Audio quality: Excellent", checkId := none },
        { type := .success, message := "Face matching completed with high confidence", checkId := none } ] }

/-- The `deepfake-suspicion` entry of `DEMO_SCENARIOS`. -/
def deepfakeSuspicion : DemoScenario :=
  { id := "deepfake-suspicion", name := "Deepfake Suspicion",
    description := "Suspicious patterns indicating potential deepfake",
    targetDecision := .FAIL,
    scorePatterns :=
      [ ("active-liveness", { min := 45, max := 65, volatility := 0.2 }),
        ("passive-forensics", { min := 25, max := 45, volatility := 0.25 }),
        ("head-pose", { min := 35, max := 55, volatility := 0.18 }),
        ("micro-dynamics", { min := 30, max := 50, volatility := 0.22 }),
        ("lip-audio-sync", { min := 28, max := 48, volatility := 0.25 }),
        ("temporal-integrity", { min := 32, max := 52, volatility := 0.2 }),
        ("face-match", { min := 75, max := 85, volatility := 0.1 }) ],
    events :=
      [ { type := .warning, message := "Unusual micro-expression patterns detected", checkId := none },
        { type := .error, message := "Temporal inconsistencies in facial features", checkId := none },
        { type := .warning, message := "Audio-visual synchronization anomalies", checkId := none },
        { type := .error, message := "Deep learning artifacts detected in video stream", checkId := none } ] }

/-- The `replay-detected` entry of `DEMO_SCENARIOS`. -/
def replayDetected : DemoScenario :=
  { id := "replay-detected", name := "Replay Attack",
    description := "Video replay attack detected",
    targetDecision := .FAIL,
    scorePatterns :=
      [ ("active-liveness", { min := 15, max := 35, volatility := 0.3 }),
        ("passive-forensics", { min := 65, max := 75, volatility := 0.1 }),
        ("head-pose", { min := 70, max := 85, volatility := 0.08 }),
        ("micro-dynamics", { min := 20, max := 40, volatility := 0.25 }),
        ("lip-audio-sync", { min := 75, max := 90, volatility := 0.12 }),
        ("temporal-integrity", { min := 45, max := 65, volatility := 0.15 }),
        ("face-match", { min := 85, max := 95, volatility := 0.08 }) ],
    events :=
      [ { type := .error, message := "No response to liveness challenges", checkId := none },
        { type := .warning, message := "Static background detected", checkId := none },
        { type := .error, message := "Lack of natural micro-movements", checkId := none },
        { type := .error, message := "Video replay patterns identified", checkId := none } ] }

/-- The `noisy-audio` entry of `DEMO_SCENARIOS`. -/
def noisyAudio : DemoScenario :=
  { id := "noisy-audio", name := "Noisy Environment",
    description := "Poor audio quality requiring retry",
    targetDecision := .RETRY,
    scorePatterns :=
      [ ("active-liveness", { min := 75, max := 85, volatility := 0.12 }),
        ("passive-forensics", { min := 80, max := 90, volatility := 0.1 }),
        ("head-pose", { min := 78, max := 88, volatility := 0.11 }),
        ("micro-dynamics", { min := 72, max := 82, volatility := 0.14 }),
        ("lip-audio-sync", { min := 35, max := 55, volatility := 0.3 }),
        ("temporal-integrity", { min := 76, max := 86, volatility := 0.12 }),
        ("face-match", { min := 85, max := 92, volatility := 0.08 }) ],
    events :=
      [ { type := .info, message := "Face detection: Normal", checkId := none },
        { type := .warning, message := "Background noise detected", checkId := none },
        { type := .error, message := "Audio quality below threshold", checkId := none },
        { type := .warning, message := "Lip-sync analysis inconclusive due to audio issues", checkId := none } ] }

/-- The `face-mismatch` entry of `DEMO_SCENARIOS`. -/
def faceMismatch : DemoScenario :=
  { id := "face-mismatch", name := "Face Mismatch",
    description := "Person does not match provided ID",
    targetDecision := .FAIL,
    scorePatterns :=
      [ ("active-liveness", { min := 82, max := 92, volatility := 0.1 }),
        ("passive-forensics", { min := 85, max := 93, volatility := 0.09 }),
        ("head-pose", { min := 80, max := 90, volatility := 0.11 }),
        ("micro-dynamics", { min := 78, max := 88, volatility := 0.13 }),
        ("lip-audio-sync", { min := 83, max := 91, volatility := 0.1 }),
        ("temporal-integrity", { min := 81, max := 89, volatility := 0.12 }),
        ("face-match", { min := 25, max := 45, volatility := 0.2 }) ],
    events :=
      [ { type := .info, message := "Liveness verification: Passed", checkId := none },
        { type := .info, message := "Video quality: Good", checkId := none },
        { type := .error, message := "Face matching score below threshold", checkId := none },
        { type := .error, message := "Identity verification failed", checkId := none } ] }

/-- The `DEMO_SCENARIOS` array. -/
def DEMO_SCENARIOS : List DemoScenario :=
  [genuinePass, deepfakeSuspicion, replayDetected, noisyAudio, faceMismatch]

/-- JavaScript `Map.get`: association-list lookup. -/
def mapGet {α : Type} : List (String × α) → String → Option α
  | [], _ => none
  | (k, v) :: rest, key => if k = key then some v else mapGet rest key

/-- JavaScript `Map.set`: replace in place, or append a new binding. -/
def mapSet {α : Type} : List (String × α) → String → α → List (String × α)
  | [], key, v => [(key, v)]
  | (k, w) :: rest, key, v =>
      if k = key then (key, v) :: rest else (k, w) :: mapSet rest key v

/-- JavaScript `Map.delete`: remove the binding for a key. -/
def mapDelete {α : Type} : List (String × α) → String → List (String × α)
  | [], _ => []
  | (k, w) :: rest, key => if k = key then rest else (k, w) :: mapDelete rest key

theorem mapGet_mapSet_self {α : Type} (m : List (String × α)) (k : String) (v : α) :
    mapGet (mapSet m k v) k = some v := by
  induction m with
  | nil => simp [mapSet, mapGet]
  | cons hd tl ih =>
      obtain ⟨k', v'⟩ := hd
      by_cases h : k' = k
      · simp [mapSet, mapGet, h]
      · simp [mapSet, mapGet, h, ih]

/-- String rendering of a `Decision`, as interpolated by the TypeScript code. -/
def decisionStr : Decision → String
  | .PASS => "PASS"
  | .RETRY => "RETRY"
  | .FAIL => "FAIL"

/-- `MockKYCEngine.createSession`: the fresh session value.  `now` stands for
`Date.now()` at creation time. -/
def createSession (sessionId : String) (ty : SessionType) (scen : DemoScenario)
    (now : Int) : KYCSession :=
  { id := sessionId
    type := ty
    status := .initializing
    scenario := scen
    checks := DEFAULT_CHECKS.map fun check =>
      { id := check.id, name := check.name, description := check.description,
        maxScore := check.maxScore, status := check.status, score := 0, timeline := [] }
    events :=
      [ { timestamp := now, type := .info,
          message := (if ty = .live then "Live" else "Upload") ++ " KYC session initialized",
          checkId := none } ]
    finalScore := 0
    decision := .PASS
    reasoning := []
    startTime := now
    endTime := none }

/-- A timer scheduled by `startProcessing`: either the timer pushing the
scenario event at `index`, or the timer running scoring step `step` of the
check at `checkIndex`. -/
inductive TimerDesc where
  | scenarioEvent (index : Nat)
  | checkStep (checkIndex : Nat) (step : Nat)
deriving DecidableEq

/-- The private fields of `MockKYCEngine`: `sessions` and `timers` maps. -/
structure EngineState where
  sessions : List (String × KYCSession)
  timers : List (String × List TimerDesc)
deriving DecidableEq

/-- The engine right after construction: both maps empty. -/
def emptyEngine : EngineState := { sessions := [], timers := [] }

/-- `MockKYCEngine.createSession`, state part: `this.sessions.set(sessionId, session)`. -/
def engineCreateSession (st : EngineState) (sessionId : String) (ty : SessionType)
    (scen : DemoScenario) (now : Int) : EngineState :=
  { st with sessions := mapSet st.sessions sessionId (createSession sessionId ty scen now) }

/-- `MockKYCEngine.getSession`: `this.sessions.get(sessionId)`. -/
def getSession (st : EngineState) (sessionId : String) : Option KYCSession :=
  mapGet st.sessions sessionId

/-- `MockKYCEngine.stopSession`: clear the pending timers of the session (if
any) and delete its `timers` entry.  The `sessions` map is not touched. -/
def stopSession (st : EngineState) (sessionId : String) : EngineState :=
  match mapGet st.timers sessionId with
  | some _ => { st with timers := mapDelete st.timers sessionId }
  | none => st

/-- The synchronous part of `startProcessing`: the session status becomes
`processing`, and every check whose id has a score pattern in the scenario
becomes `processing` as well. -/
def markProcessing (s : KYCSession) : KYCSession :=
  { s with
    status := .processing
    checks := s.checks.map fun check =>
      if (mapGet s.scenario.scorePatterns check.id).isSome
      then { check with status := CheckStatus.processing }
      else check }

/-- The timers scheduled by one `startProcessing` call: one per scenario
event, and `steps + 1 = 21` per check that has a score pattern. -/
def timersFor (s : KYCSession) : List TimerDesc :=
  (List.range s.scenario.events.length).map TimerDesc.scenarioEvent
    ++ (List.range s.checks.length).flatMap fun checkIndex =>
        match s.checks.get? checkIndex with
        | some check =>
            if (mapGet s.scenario.scorePatterns check.id).isSome
            then (List.range 21).map (TimerDesc.checkStep checkIndex)
            else []
        | none => []

/-- `MockKYCEngine.startProcessing`.  An unknown session id is a silent no-op
(`if (!session) return`).  Otherwise the session is marked processing, the
timers are dispatched and stored under the session id (replacing any previous
entry).  The returned list is the set of dispatched timers. -/
def startProcessing (st : EngineState) (sessionId : String) :
    EngineState × List TimerDesc :=
  match mapGet st.sessions sessionId with
  | none => (st, [])
  | some s =>
      let dispatched := timersFor s
      ({ sessions := mapSet st.sessions sessionId (markProcessing s)
         timers := mapSet st.timers sessionId dispatched }, dispatched)

/-- Display names of a list of checks, comma-joined (`.map(c => c.name).join(', ')`). -/
def joinNames (l : List KYCCheck) : String :=
  String.intercalate (", ") (l.map fun check => check.name)

/-- `MockKYCEngine.generateReasoning`. -/
def generateReasoning (s : KYCSession) : List String :=
  match s.decision with
  | .PASS =>
      [ "All security checks passed with high confidence scores",
        "Live person detected with natural biometric patterns",
        "No signs of manipulation or fraud detected" ]
  | .RETRY =>
      let lowScoreChecks := s.checks.filter fun check => check.score < 60
      (if lowScoreChecks.length > 0
       then ["Poor quality detected in: " ++ joinNames lowScoreChecks]
       else [])
        ++ [ "Please retry with better lighting and audio conditions",
             "Ensure stable internet connection and clear video quality" ]
  | .FAIL =>
      let failedChecks := s.checks.filter fun check => check.score < 50
      (if failedChecks.length > 0
       then ["Failed security checks: " ++ joinNames failedChecks]
       else [])
        ++ [ "Potential fraud or manipulation detected",
             "Identity verification requirements not met" ]

/-- `MockKYCEngine.completeSession`, session part: aggregate the final score,
copy the scenario's target decision, generate reasoning, mark completed and
append the completion event.  `now` stands for `Date.now()`. -/
def completeSession (s : KYCSession) (now : Int) : KYCSession :=
  let totalScore : Int := s.checks.foldl (fun sum check => sum + check.score) 0
  let final : Int := jsRound ((totalScore : Rat) / (s.checks.length : Rat))
  let s1 : KYCSession := { s with finalScore := final, decision := s.scenario.targetDecision }
  let s2 : KYCSession := { s1 with reasoning := generateReasoning s1 }
  let s3 : KYCSession := { s2 with status := .completed, endTime := some now }
  { s3 with
    events := s3.events ++
      [ { timestamp := now
          type := match s3.decision with
            | .PASS => .success
            | .RETRY => .warning
            | .FAIL => .error
          message := "KYC verification completed: " ++ decisionStr s3.decision
          checkId := none } ] }

/-- The body of one scenario-event timer in `startProcessing`: append the
event with the firing timestamp. -/
def appendScenarioEvent (s : KYCSession) (ev : ScenarioEvent) (now : Int) : KYCSession :=
  { s with events := s.events ++
      [ { timestamp := now, type := ev.type, message := ev.message, checkId := ev.checkId } ] }

/-- The score assignment of one scoring step:
`Math.round(Math.min(100, Math.max(0, raw)))`, where `raw` is the computed
(random) value `progress * targetScore + (1 - progress) * volatility`. -/
def clampRound (raw : Rat) : Int := jsRound (min 100 (max 0 raw))

/-- The body of one check-scoring timer: set the clamped rounded score, push
it on the timeline, and on the last step (`step = steps = 20`) mark the check
completed. -/
def stepCheck (check : KYCCheck) (step : Nat) (raw : Rat) (now : Int) : KYCCheck :=
  let sc := clampRound raw
  let c1 := { check with score := sc, timeline := check.timeline ++ [{ timestamp := now, score := sc }] }
  if step = 20 then { c1 with status := CheckStatus.completed } else c1

/-- The body of the check-scoring timer for check `checkIndex` at `step`,
lifted to the session: update the check, and if this was the last step and
every check is now completed, run `completeSession`. -/
def applyCheckStep (s : KYCSession) (checkIndex step : Nat) (raw : Rat) (now : Int) : KYCSession :=
  match s.checks.get? checkIndex with
  | none => s
  | some check =>
      let s1 := { s with checks := s.checks.set checkIndex (stepCheck check step raw now) }
      if step = 20 then
        if s1.checks.all (fun c => c.status = CheckStatus.completed) then completeSession s1 now
        else s1
      else s1

/-- One entry of the `checks` array of the exported report (drops `description`). -/
structure ReportCheck where
  id : String
  name : String
  score : Int
  maxScore : Int
  status : CheckStatus
  timeline : List TimelinePoint
deriving DecidableEq

/-- The `metadata` block of the exported report. -/
structure ReportMetadata where
  userAgent : String
  timestamp : Int
deriving DecidableEq

/-- The report object literal built by `exportReport`, fields in source order. -/
structure Report where
  sessionId : String
  timestamp : String
  type : SessionType
  scenario : String
  duration : Int
  checks : List ReportCheck
  events : List SessionEvent
  finalScore : Int
  decision : Decision
  reasoning : List String
  metadata : ReportMetadata
deriving DecidableEq

/-- The ambient environment read while exporting: `new Date().toISOString()`,
`Date.now()` and `navigator.userAgent`. -/
structure BrowserEnv where
  nowISO : String
  nowMs : Int
  userAgent : String
deriving DecidableEq

/-- The report object built from a session by `exportReport`. -/
def buildReport (s : KYCSession) (env : BrowserEnv) : Report :=
  { sessionId := s.id
    timestamp := env.nowISO
    type := s.type
    scenario := s.scenario.name
    duration := match s.endTime with
      | some e => e - s.startTime
      | none => 0
    checks := s.checks.map fun check =>
      { id := check.id, name := check.name, score := check.score,
        maxScore := check.maxScore, status := check.status, timeline := check.timeline }
    events := s.events
    finalScore := s.finalScore
    decision := s.decision
    reasoning := s.reasoning
    metadata := { userAgent := env.userAgent, timestamp := env.nowMs } }

/-- Double-quote a string, as JSON serialization does. -/
def qstr (s : String) : String := "\"" ++ s ++ "\""

/-- Rendering of a `SessionType` in the serialized report. -/
def sessionTypeStr : SessionType → String
  | .upload => "upload"
  | .live => "live"

/-- Rendering of a `CheckStatus` in the serialized report. -/
def checkStatusStr : CheckStatus → String
  | .pending => "pending"
  | .processing => "processing"
  | .completed => "completed"
  | .failed => "failed"

/-- Rendering of an `EventType` in the serialized report. -/
def eventTypeStr : EventType → String
  | .info => "info"
  | .warning => "warning"
  | .error => "error"
  | .success => "success"

/-- Serialization of a check's timeline. -/
def renderTimeline (l : List TimelinePoint) : String :=
  "[" ++ String.intercalate (",") (l.map fun p =>
    "\x7b" ++ qstr ("timestamp") ++ ":" ++ toString p.timestamp ++ ","
      ++ qstr ("score") ++ ":" ++ toString p.score ++ "\x7d") ++ "]"

/-- Serialization of one report check. -/
def renderCheck (c : ReportCheck) : String :=
  "\x7b" ++ qstr ("id") ++ ":" ++ qstr c.id ++ ","
    ++ qstr ("name") ++ ":" ++ qstr c.name ++ ","
    ++ qstr ("score") ++ ":" ++ toString c.score ++ ","
    ++ qstr ("maxScore") ++ ":" ++ toString c.maxScore ++ ","
    ++ qstr ("status") ++ ":" ++ qstr (checkStatusStr c.status) ++ ","
    ++ qstr ("timeline") ++ ":" ++ renderTimeline c.timeline ++ "\x7d"

/-- Serialization of one session event. -/
def renderEvent (e : SessionEvent) : String :=
  "\x7b" ++ qstr ("timestamp") ++ ":" ++ toString e.timestamp ++ ","
    ++ qstr ("type") ++ ":" ++ qstr (eventTypeStr e.type) ++ ","
    ++ qstr ("message") ++ ":" ++ qstr e.message
    ++ (match e.checkId with
        | some cid => "," ++ qstr ("checkId") ++ ":" ++ qstr cid
        | none => "")
    ++ "\x7d"

/-- `JSON.stringify(report, null, 2)`, modelled as a canonical rendering with
the report's field order fixed (indentation elided). -/
def renderReport (r : Report) : String :=
  "\x7b" ++ qstr ("sessionId") ++ ":" ++ qstr r.sessionId ++ ","
    ++ qstr ("timestamp") ++ ":" ++ qstr r.timestamp ++ ","
    ++ qstr ("type") ++ ":" ++ qstr (sessionTypeStr r.type) ++ ","
    ++ qstr ("scenario") ++ ":" ++ qstr r.scenario ++ ","
    ++ qstr ("duration") ++ ":" ++ toString r.duration ++ ","
    ++ qstr ("checks") ++ ":[" ++ String.intercalate (",") (r.checks.map renderCheck) ++ "],"
    ++ qstr ("events") ++ ":[" ++ String.intercalate (",") (r.events.map renderEvent) ++ "],"
    ++ qstr ("finalScore") ++ ":" ++ toString r.finalScore ++ ","
    ++ qstr ("decision") ++ ":" ++ qstr (decisionStr r.decision) ++ ","
    ++ qstr ("reasoning") ++ ":[" ++ String.intercalate (",") (r.reasoning.map qstr) ++ "],"
    ++ qstr ("metadata") ++ ":\x7b" ++ qstr ("userAgent") ++ ":" ++ qstr r.metadata.userAgent ++ ","
    ++ qstr ("timestamp") ++ ":" ++ toString r.metadata.timestamp ++ "\x7d\x7d"

/-- `MockKYCEngine.exportReport`: throws `Session not found` for an unknown
id, otherwise builds the report object from whatever session is stored —
there is no status check — and returns its serialization. -/
def exportReport (st : EngineState) (sessionId : String) (env : BrowserEnv) :
    Except String String :=
  match mapGet st.sessions sessionId with
  | none => Except.error ("Session not found")
  | some s => Except.ok (renderReport (buildReport s env))

/-- The parsed HTTP response seen by `callCheck` in
`src/services/checks.ts`: the `response.ok` flag and the decoded
`data.score`. -/
structure CheckHttpResponse where
  ok : Bool
  score : Int
deriving DecidableEq

/-- `callCheck` from `src/services/checks.ts`: throw on a non-ok response,
otherwise return `data.score` as-is. -/
def callCheck (checkName : String) (response : CheckHttpResponse) : Except String Int :=
  if response.ok = false then Except.error ("Check " ++ checkName ++ " failed")
  else Except.ok response.score

/-- Session values producible by the engine's own operations: a freshly
created session, followed by any interleaving of the synchronous part of
`startProcessing`, the scenario-event timers, the check-scoring timers (with
arbitrary random inputs and timestamps) and completion. -/
inductive Reaches : KYCSession → Prop where
  | created (sessionId : String) (ty : SessionType) (scen : DemoScenario) (now : Int) :
      Reaches (createSession sessionId ty scen now)
  | marked (s : KYCSession) : Reaches s → Reaches (markProcessing s)
  | scenarioEvent (s : KYCSession) (ev : ScenarioEvent) (now : Int) :
      Reaches s → Reaches (appendScenarioEvent s ev now)
  | checkStep (s : KYCSession) (checkIndex step : Nat) (raw : Rat) (now : Int) :
      Reaches s → Reaches (applyCheckStep s checkIndex step raw now)
  | completed (s : KYCSession) (now : Int) : Reaches s → Reaches (completeSession s now)

/-- Reasoning behaviour as described (used as the specification side of the
refinement for the reasoning generator): the final score is never stated; on
PASS three fixed sentences; on RETRY the checks scoring below 60, listed by
display name comma-joined in configured order when there are any, then two
fixed advice sentences; on FAIL the checks scoring below 50, listed the same
way when there are any, then two fixed sentences. -/
def reasoningSpec (s : KYCSession) : List String :=
  match s.decision with
  | .PASS =>
      [ "All security checks passed with high confidence scores",
        "Live person detected with natural biometric patterns",
        "No signs of manipulation or fraud detected" ]
  | .RETRY =>
      (if (s.checks.filter fun check => check.score < 60) = [] then []
       else ["Poor quality detected in: "
              ++ String.intercalate (", ")
                  ((s.checks.filter fun check => check.score < 60).map fun check => check.name)])
        ++ [ "Please retry with better lighting and audio conditions",
             "Ensure stable internet connection and clear video quality" ]
  | .FAIL =>
      (if (s.checks.filter fun check => check.score < 50) = [] then []
       else ["Failed security checks: "
              ++ String.intercalate (", ")
                  ((s.checks.filter fun check => check.score < 50).map fun check => check.name)])
        ++ [ "Potential fraud or manipulation detected",
             "Identity verification requirements not met" ]

/-- `completeSession` never touches the check list. -/
theorem completeSession_checks (s : KYCSession) (now : Int) :
    (completeSession s now).checks = s.checks := rfl

/-- `stepCheck` keeps the check's identifier. -/
theorem stepCheck_id (check : KYCCheck) (step : Nat) (raw : Rat) (now : Int) :
    (stepCheck check step raw now).id = check.id := by
  unfold stepCheck
  split <;> rfl

/-- `stepCheck` sets the score to the clamped rounded raw value. -/
theorem stepCheck_score (check : KYCCheck) (step : Nat) (raw : Rat) (now : Int) :
    (stepCheck check step raw now).score = clampRound raw := by
  unfold stepCheck
  split <;> rfl

/-- The clamped rounded score is always in `[0, 100]`. -/
theorem clampRound_bounds (raw : Rat) : 0 ≤ clampRound raw ∧ clampRound raw ≤ 100 := by
  unfold clampRound jsRound
  constructor
  · have h0 : (0 : Rat) ≤ min 100 (max 0 raw) :=
      le_min (by norm_num) (le_max_left 0 raw)
    have : (0 : Rat) ≤ min 100 (max 0 raw) + 1 / 2 := by linarith
    exact_mod_cast Int.le_floor.mpr (by exact_mod_cast this)
  · have h1 : min 100 (max 0 raw) ≤ (100 : Rat) := min_le_left _ _
    have h2 : min 100 (max 0 raw) + 1 / 2 ≤ (100 : Rat) + 1 / 2 := by linarith
    calc ⌊min 100 (max 0 raw) + 1 / 2⌋ ≤ ⌊(100 : Rat) + 1 / 2⌋ := Int.floor_le_floor h2
      _ = 100 := by norm_num

/-- Mapping over a pointwise update: if the updated element keeps its image,
the mapped list is unchanged. -/
theorem map_set_of_get {α β : Type} (f : α → β) :
    ∀ (l : List α) (i : Nat) (x c : α), l.get? i = some c → f x = f c →
      (l.set i x).map f = l.map f := by
  intro l
  induction l with
  | nil => intro i x c h _; simp at h
  | cons hd tl ih =>
      intro i x c h hfx
      cases i with
      | zero =>
          simp at h
          subst h
          simp only [List.set, List.map_cons, hfx]
      | succ j =>
          simp at h
          simp only [List.set, List.map_cons, List.cons.injEq]
          exact ⟨trivial, ih j x c (by simpa using h) hfx⟩

/-- An element of `l.set i x` is `x` or an element of `l`. -/
theorem eq_or_mem_of_mem_set {α : Type} :
    ∀ (l : List α) (i : Nat) (x y : α), y ∈ l.set i x → y = x ∨ y ∈ l := by
  intro l
  induction l with
  | nil => intro i x y h; simp [List.set] at h
  | cons hd tl ih =>
      intro i x y h
      cases i with
      | zero =>
          simp only [List.set, List.mem_cons] at h
          rcases h with h | h
          · exact Or.inl h
          · exact Or.inr (List.mem_cons_of_mem _ h)
      | succ j =>
          simp only [List.set, List.mem_cons] at h
          rcases h with h | h
          · exact Or.inr (by rw [h]; exact List.mem_cons_self hd tl)
          · rcases ih j x y h with h' | h'
            · exact Or.inl h'
            · exact Or.inr (List.mem_cons_of_mem _ h')

/-- Folding `+score` mirrors the mapped sum. -/
theorem foldl_add_score (l : List KYCCheck) :
    ∀ a : Int, l.foldl (fun x check => x + check.score) a
      = a + (l.map fun check => check.score).sum := by
  induction l with
  | nil => intro a; simp
  | cons hd tl ih =>
      intro a
      simp [List.foldl_cons, ih, List.sum_cons]
      ring

/-- Casting the integer sum of scores to the rationals. -/
theorem cast_sum_scores (l : List KYCCheck) :
    (((l.map fun check => check.score).sum : Int) : Rat)
      = (l.map fun check => (check.score : Rat)).sum := by
  induction l with
  | nil => simp
  | cons hd tl ih =>
      simp [List.sum_cons, ih]

deriving instance DecidableEq for Except

/-- Seeds a session with terminal per-check scores (each such state is what
the scoring timers leave behind right before completion). -/
def withScores (s : KYCSession) (scores : List Int) : KYCSession :=
  { s with checks := (s.checks.zip scores).map fun p =>
      { p.1 with score := p.2, status := CheckStatus.completed } }

/-- A face-mismatch session right before completion: six strong checks and a
low face match, every score inside its scenario pattern range. -/
def preC1 : KYCSession :=
  withScores (markProcessing (createSession ("c1-session") SessionType.upload faceMismatch 0))
    [90, 90, 88, 86, 89, 87, 30]

/-- A deepfake-suspicion session right before completion, every score at its
pattern maximum. -/
def preC8 : KYCSession :=
  withScores (markProcessing (createSession ("c8-session") SessionType.upload deepfakeSuspicion 0))
    [65, 45, 55, 50, 48, 52, 85]

/-- The completed deepfake-suspicion session. -/
def doneC8 : KYCSession := completeSession preC8 3

/-- Engine with one freshly created session. -/
def stA : EngineState := engineCreateSession emptyEngine ("s-1") SessionType.upload genuinePass 0

/-- Engine after starting analysis once on that session. -/
def stB : EngineState := (startProcessing stA ("s-1")).1

/-- Engine holding one completed session. -/
def stDone : EngineState :=
  { sessions := [("c1-session", completeSession preC1 2)], timers := [] }

/-- An unrelated session used to vary the surrounding state. -/
def otherSession : KYCSession := createSession ("x-session") SessionType.live noisyAudio 5

/-- A different engine state that stores the same completed session under the
same id, plus unrelated entries. -/
def stDone2 : EngineState :=
  { sessions := [("x-session", otherSession), ("c1-session", completeSession preC1 2)],
    timers := [("c1-session", [TimerDesc.scenarioEvent 0])] }

/-- Engine holding one session that is still processing. -/
def stProc : EngineState :=
  { sessions := [("p-session", markProcessing (createSession ("p-session") SessionType.live genuinePass 0))],
    timers := [] }

/-- Export environment at one instant. -/
def envA : BrowserEnv := { nowISO := "2024-01-01T00:00:00.000Z", nowMs := 111, userAgent := "Mozilla/5.0" }

/-- Export environment one second later. -/
def envB : BrowserEnv := { nowISO := "2024-01-01T00:00:01.000Z", nowMs := 222, userAgent := "Mozilla/5.0" }

/-- Placeholder check for total list indexing. -/
def dummyCheck : KYCCheck :=
  { id := "", name := "", description := "", score := 0, maxScore := 0,
    status := .pending, timeline := [] }

/-- Lookup misses every key absent from the association list. -/
theorem mapGet_eq_none_of_not_mem {α : Type} :
    ∀ (l : List (String × α)) (k : String), k ∉ l.map Prod.fst → mapGet l k = none := by
  intro l
  induction l with
  | nil => intro k _; rfl
  | cons hd tl ih =>
      intro k hk
      obtain ⟨k', v'⟩ := hd
      simp only [List.map_cons, List.mem_cons] at hk
      push_neg at hk
      simp only [mapGet]
      rw [if_neg (fun he => hk.1 he.symm)]
      exact ih k hk.2

/-- Deleting a key from a duplicate-free association list makes its lookup miss. -/
theorem mapGet_mapDelete_self {α : Type} :
    ∀ (l : List (String × α)) (k : String), (l.map Prod.fst).Nodup →
      mapGet (mapDelete l k) k = none := by
  intro l
  induction l with
  | nil => intro k _; rfl
  | cons hd tl ih =>
      intro k hnd
      obtain ⟨k', v'⟩ := hd
      simp only [List.map_cons, List.nodup_cons] at hnd
      by_cases he : k' = k
      · simp only [mapDelete, if_pos he]
        exact mapGet_eq_none_of_not_mem tl k (he ▸ hnd.1)
      · simp only [mapDelete, if_neg he, mapGet, if_neg he]
        exact ih k hnd.2

/-- `markProcessing` rewrites the checks pointwise. -/
theorem markProcessing_checks (s : KYCSession) :
    (markProcessing s).checks = s.checks.map fun check =>
      if (mapGet s.scenario.scorePatterns check.id).isSome
      then { check with status := CheckStatus.processing }
      else check := rfl

/-- `appendScenarioEvent` never touches the check list. -/
theorem appendScenarioEvent_checks (s : KYCSession) (ev : ScenarioEvent) (now : Int) :
    (appendScenarioEvent s ev now).checks = s.checks := rfl

/-- A scoring step either leaves the checks alone (index out of range) or
replaces exactly the indexed check with its stepped value. -/
theorem applyCheckStep_checks (s : KYCSession) (checkIndex step : Nat) (raw : Rat) (now : Int) :
    (applyCheckStep s checkIndex step raw now).checks = s.checks ∨
    ∃ c, s.checks.get? checkIndex = some c ∧
      (applyCheckStep s checkIndex step raw now).checks
        = s.checks.set checkIndex (stepCheck c step raw now) := by
  unfold applyCheckStep
  cases h : s.checks.get? checkIndex with
  | none => exact Or.inl rfl
  | some c =>
      right
      refine ⟨c, rfl, ?_⟩
      dsimp only
      split
      · split
        · rw [completeSession_checks]
        · rfl
      · rfl

/-- C1 counterexample: a completed face-mismatch session whose aggregated
final score is at least 60 and whose decision is nevertheless `FAIL` — the
decision does not follow the `finalScore ≥ 60 ↔ PASS` rule. -/
theorem c1_counterexample_high_score_fail_decision :
    (completeSession preC1 2).status = SessionStatus.completed ∧
    60 ≤ (completeSession preC1 2).finalScore ∧
    (completeSession preC1 2).decision = Decision.FAIL := by
  refine ⟨by decide, ?_, by decide⟩
  have h : (completeSession preC1 2).finalScore
      = jsRound (((560 : Int) : Rat) / ((7 : Nat) : Rat)) := rfl
  rw [h]
  norm_num [jsRound]

/-- C1 (amended): for every session that reaches completed status, the
decision verdict equals the session's scenario `targetDecision` (one of
PASS, RETRY, FAIL), independent of the final aggregated score. -/
theorem c1_decision_is_scenario_target (s : KYCSession) (now : Int) :
    (completeSession s now).decision = s.scenario.targetDecision := rfl

/-- C2: for every session that reaches completed status, the final
aggregated score is the arithmetic mean of all configured checks' current
scores rounded half-up to the nearest integer, with the denominator the full
check count — so a zero-scored check contributes 0 to the sum and still
counts in the denominator. -/
theorem c2_final_score_is_rounded_mean (s : KYCSession) (now : Int) (hne : s.checks ≠ []) :
    (completeSession s now).finalScore
      = jsRound ((s.checks.map fun check => (check.score : Rat)).sum / (s.checks.length : Rat)) := by
  show jsRound (((s.checks.foldl (fun x check => x + check.score) 0 : Int) : Rat)
        / (s.checks.length : Rat)) = _
  rw [foldl_add_score, zero_add, cast_sum_scores]

/-- C2 witness: the mean formula evaluated on a concrete seven-check session. -/
theorem c2_final_score_is_rounded_mean_witness :
    (completeSession preC1 2).finalScore
      = jsRound ((preC1.checks.map fun check => (check.score : Rat)).sum / (preC1.checks.length : Rat)) :=
  c2_final_score_is_rounded_mean preC1 2 (by decide)

/-- C3 counterexample: the same stored completed session serialized at two
different generation instants yields two different artifacts — the
serialization does not depend only on the session's data, so the exported
bytes (and hence their digests) differ between the two builds. -/
theorem c3_counterexample_export_depends_on_time :
    ((getSession stDone ("c1-session")).map fun s => s.status) = some SessionStatus.completed ∧
    exportReport stDone ("c1-session") envA ≠ exportReport stDone ("c1-session") envB := by
  exact ⟨by decide, by decide⟩

/-- C3 (amended): report building is a function of the stored session data
and the generation environment (timestamp and user agent): two states storing
the same session under the id serialize identically, and hashing the
identical serialization yields identical digests; determinism holds only
once the generation environment is fixed. -/
theorem c3_export_function_of_session_and_env (st st' : EngineState) (sessionId : String)
    (env : BrowserEnv) (h : mapGet st.sessions sessionId = mapGet st'.sessions sessionId) :
    exportReport st sessionId env = exportReport st' sessionId env := by
  unfold exportReport
  rw [h]

/-- C3 witness: two different engine states holding the same completed
session export the same artifact. -/
theorem c3_export_function_of_session_and_env_witness :
    exportReport stDone ("c1-session") envA = exportReport stDone2 ("c1-session") envA :=
  c3_export_function_of_session_and_env stDone stDone2 ("c1-session") envA rfl

/-- C4 counterexample: after discarding a session that had pending timers,
its timers entry is gone but the session itself is still found by `get` —
discarding does not remove the session from the registry. -/
theorem c4_counterexample_session_survives_discard :
    (mapGet stB.timers ("s-1")).isSome = true ∧
    mapGet (stopSession stB ("s-1")).timers ("s-1") = none ∧
    (getSession (stopSession stB ("s-1")) ("s-1")).isSome = true := by
  exact ⟨by decide, by decide, by decide⟩

/-- C4 (amended): discarding (stopping) a session cancels its still-pending
check-invocation timers — the timers entry is removed — but the session stays
in the registry, so a subsequent `get` returns exactly what it returned
before. -/
theorem c4_stop_cancels_timers_keeps_session (st : EngineState) (sessionId : String)
    (h : (st.timers.map Prod.fst).Nodup) :
    mapGet (stopSession st sessionId).timers sessionId = none ∧
    getSession (stopSession st sessionId) sessionId = getSession st sessionId := by
  constructor
  · unfold stopSession
    cases hg : mapGet st.timers sessionId with
    | none => simp [hg]
    | some ts =>
        simp only [hg]
        exact mapGet_mapDelete_self st.timers sessionId h
  · unfold stopSession getSession
    cases hg : mapGet st.timers sessionId <;> simp [hg]

/-- C4 witness: stopping the started session of the two-entry engine state. -/
theorem c4_stop_cancels_timers_keeps_session_witness :
    mapGet (stopSession stB ("s-1")).timers ("s-1") = none ∧
    getSession (stopSession stB ("s-1")) ("s-1") = getSession stB ("s-1") :=
  c4_stop_cancels_timers_keeps_session stB ("s-1") (by decide)

/-- C5 counterexample: starting analysis again on a session that is already
`processing` dispatches the same full, non-empty set of check-invocation
timers a second time — a duplicate dispatch, not a no-op and not an error. -/
theorem c5_counterexample_duplicate_dispatch :
    ((getSession stB ("s-1")).map fun s => s.status) = some SessionStatus.processing ∧
    (startProcessing stB ("s-1")).2 = (startProcessing stA ("s-1")).2 ∧
    (startProcessing stA ("s-1")).2 ≠ [] := by
  exact ⟨by decide, by decide, by decide⟩

/-- C5 (amended): `startProcessing` has no status guard: for a stored
session it always dispatches the full timer set determined by the session's
scenario and checks, and it dispatches that same set even if the stored
session's status is first overwritten with any status (in particular
`processing` or `completed`). -/
theorem c5_dispatch_ignores_status (st : EngineState) (sessionId : String) (s : KYCSession)
    (stat : SessionStatus) (h : mapGet st.sessions sessionId = some s) :
    (startProcessing st sessionId).2 = timersFor s ∧
    (startProcessing
        { st with sessions := mapSet st.sessions sessionId { s with status := stat } }
        sessionId).2 = timersFor s := by
  constructor
  · unfold startProcessing
    rw [h]
  · unfold startProcessing
    rw [mapGet_mapSet_self]
    rfl

/-- The session stored in `stA`. -/
def freshS1 : KYCSession := createSession ("s-1") SessionType.upload genuinePass 0

/-- The same session with its status overwritten to `processing`. -/
def s1AsProcessing : KYCSession := { freshS1 with status := SessionStatus.processing }

/-- `stA` with the stored session forced to `processing` status. -/
def stAOverwritten : EngineState :=
  { stA with sessions := mapSet stA.sessions ("s-1") s1AsProcessing }

/-- C5 witness: the dispatched timer set for a fresh genuine-pass session is
the same whether or not the stored status is first set to `processing`. -/
theorem c5_dispatch_ignores_status_witness :
    (startProcessing stA ("s-1")).2 = timersFor freshS1 ∧
    (startProcessing stAOverwritten ("s-1")).2 = timersFor freshS1 :=
  c5_dispatch_ignores_status stA ("s-1") freshS1 SessionStatus.processing rfl

/-- Marking the checks as processing keeps their identifiers. -/
theorem markProcessing_check_ids (s : KYCSession) :
    (markProcessing s).checks.map (fun check => check.id)
      = s.checks.map (fun check => check.id) := by
  rw [markProcessing_checks, List.map_map]
  apply List.map_congr_left
  intro c _
  by_cases hcp : (mapGet s.scenario.scorePatterns c.id).isSome = true
  · simp [Function.comp, hcp]
  · simp [Function.comp, hcp]

/-- C6: at every point after creation, the identifiers of a session's
checks are exactly the configured `DEFAULT_CHECKS` identifiers (the seven
configured checks), in order — no engine operation ever adds or removes a
check. -/
theorem c6_check_ids_invariant (s : KYCSession) (h : Reaches s) :
    s.checks.map (fun check => check.id) = DEFAULT_CHECKS.map (fun d => d.id) := by
  induction h with
  | created sessionId ty scen now => rfl
  | marked s hr ih =>
      rw [markProcessing_check_ids]
      exact ih
  | scenarioEvent s ev now hr ih =>
      rw [appendScenarioEvent_checks]
      exact ih
  | checkStep s checkIndex step raw now hr ih =>
      rcases applyCheckStep_checks s checkIndex step raw now with hc | ⟨c, hget, hc⟩
      · rw [hc]; exact ih
      · rw [hc, map_set_of_get _ s.checks checkIndex _ c hget (stepCheck_id c step raw now)]
        exact ih
  | completed s now hr ih =>
      rw [completeSession_checks]
      exact ih

/-- C6 witness: the invariant at a freshly created session. -/
theorem c6_check_ids_invariant_witness :
    (createSession ("w-session") SessionType.upload genuinePass 0).checks.map
        (fun check => check.id)
      = DEFAULT_CHECKS.map (fun d => d.id) :=
  c6_check_ids_invariant _ (Reaches.created ("w-session") SessionType.upload genuinePass 0)

/-- C7 counterexample: `callCheck` accepts a response whose score is outside
`[0, 100]` and returns it to the caller unchanged — no `InvalidScore`
failure occurs and nothing is coerced to a failed zero-score result. -/
theorem c7_counterexample_out_of_range_score :
    callCheck ("active-liveness") { ok := true, score := 150 } = Except.ok 150 ∧
    ¬((150 : Int) ≤ 100) := by
  exact ⟨by decide, by decide⟩

/-- C7 (amended): `callCheck` performs no bounded wait and no score
validation: a non-ok HTTP response raises `Check <name> failed`, and an ok
response's score is returned to the caller as-is, even when it lies outside
`[0, 100]`. -/
theorem c7_callCheck_passes_score_through (checkName : String) (response : CheckHttpResponse) :
    (response.ok = true → callCheck checkName response = Except.ok response.score) ∧
    (response.ok = false →
      callCheck checkName response = Except.error ("Check " ++ checkName ++ " failed")) := by
  constructor
  · intro h
    simp [callCheck, h]
  · intro h
    simp [callCheck, h]

/-- C7 witness: an in-range score is likewise passed through unchanged. -/
theorem c7_callCheck_passes_score_through_witness :
    callCheck ("face-match") { ok := true, score := 42 } = Except.ok 42 :=
  (c7_callCheck_passes_score_through ("face-match") { ok := true, score := 42 }).1 rfl

/-- C8 counterexample: a completed FAIL session whose reasoning opens with a
constant failing-check list computed with threshold 50, not 60: the checks at
55, 50 and 52 score below 60 yet are absent from the reasoning, no line
states the final score, and no below-30 critical list exists. -/
theorem c8_counterexample_fail_reasoning_uses_threshold_50 :
    doneC8.status = SessionStatus.completed ∧
    doneC8.decision = Decision.FAIL ∧
    doneC8.reasoning =
      [ "Failed security checks: Passive Forensics, Lip-Audio Sync",
        "Potential fraud or manipulation detected",
        "Identity verification requirements not met" ] ∧
    (doneC8.checks.filter fun check => check.score < 60).map (fun check => check.name)
      = [ "Passive Forensics", "Head Pose (3D)", "Micro-Dynamics",
          "Lip-Audio Sync", "Temporal Integrity" ] := by
  exact ⟨by decide, by decide, by decide, by decide⟩

/-- C8 (amended): reasoning generation is deterministic given the decision
and the check scores and never states the final score: on PASS three fixed
sentences; on RETRY the checks scoring below 60 listed by display name,
comma-joined in configured order (when any), then two fixed advice
sentences; on FAIL the checks scoring below 50 listed the same way (when
any), then two fixed sentences. -/
theorem c8_reasoning_matches_described_policy :
    (∀ s, generateReasoning s = reasoningSpec s) ∧
    (∀ s n, generateReasoning { s with finalScore := n } = generateReasoning s) := by
  constructor
  · intro s
    unfold generateReasoning reasoningSpec joinNames
    cases hd : s.decision
    · rfl
    · by_cases hl : (s.checks.filter fun check => check.score < 60) = []
      · simp [hl]
      · simp [hl, List.length_pos]
    · by_cases hl : (s.checks.filter fun check => check.score < 50) = []
      · simp [hl]
      · simp [hl, List.length_pos]
  · intro s n
    rfl

/-- C9 counterexample: exporting a session that is still `processing`
silently produces an artifact — no `ArtifactNotReady`-style rejection
exists. -/
theorem c9_counterexample_export_from_processing_session :
    ((getSession stProc ("p-session")).map fun s => s.status) = some SessionStatus.processing ∧
    (exportReport stProc ("p-session") envA).isOk = true := by
  exact ⟨by decide, by decide⟩

/-- C9 (amended): exporting an unknown session id is rejected with
`Session not found`; exporting any known session succeeds regardless of its
status — there is no completion check — and a session without an end time
yields an artifact whose duration is 0. -/
theorem c9_export_rejects_only_unknown_session (st : EngineState) (sessionId : String)
    (env : BrowserEnv) :
    (mapGet st.sessions sessionId = none →
      exportReport st sessionId env = Except.error ("Session not found")) ∧
    (∀ s, mapGet st.sessions sessionId = some s →
      exportReport st sessionId env = Except.ok (renderReport (buildReport s env)) ∧
      (s.endTime = none → (buildReport s env).duration = 0)) := by
  refine ⟨fun h => ?_, fun s h => ⟨?_, fun he => ?_⟩⟩
  · unfold exportReport
    rw [h]
  · unfold exportReport
    rw [h]
  · simp [buildReport, he]

/-- C9 witness: an unknown id is rejected with the session-not-found error. -/
theorem c9_export_rejects_only_unknown_session_witness :
    exportReport stProc ("missing-id") envA = Except.error ("Session not found") :=
  (c9_export_rejects_only_unknown_session stProc ("missing-id") envA).1 rfl

/-- C10: for every session value the engine can produce, every check score
is an integer in `[0, 100]`: creation initializes scores to 0, and every
scoring step clamps the computed value into `[0, 100]` before rounding. -/
theorem c10_scores_always_in_range (s : KYCSession) (h : Reaches s) :
    ∀ check ∈ s.checks, 0 ≤ check.score ∧ check.score ≤ 100 := by
  induction h with
  | created sessionId ty scen now =>
      intro c hc
      rcases List.mem_map.mp hc with ⟨d, _, rfl⟩
      exact ⟨le_refl 0, show (0 : Int) ≤ 100 by norm_num⟩
  | marked s hr ih =>
      intro c hc
      rw [markProcessing_checks] at hc
      rcases List.mem_map.mp hc with ⟨c0, hc0, rfl⟩
      have hs : (if (mapGet s.scenario.scorePatterns c0.id).isSome
          then { c0 with status := CheckStatus.processing } else c0).score = c0.score := by
        split <;> rfl
      rw [hs]
      exact ih c0 hc0
  | scenarioEvent s ev now hr ih =>
      intro c hc
      rw [appendScenarioEvent_checks] at hc
      exact ih c hc
  | checkStep s checkIndex step raw now hr ih =>
      intro c hc
      rcases applyCheckStep_checks s checkIndex step raw now with hck | ⟨c0, hget, hck⟩
      · rw [hck] at hc
        exact ih c hc
      · rw [hck] at hc
        rcases eq_or_mem_of_mem_set _ _ _ _ hc with he | hmem
        · rw [he, stepCheck_score]
          exact clampRound_bounds raw
        · exact ih c hmem
  | completed s now hr ih =>
      intro c hc
      rw [completeSession_checks] at hc
      exact ih c hc

/-- C10 witness: the bound at the first check of a freshly created session. -/
theorem c10_scores_always_in_range_witness :
    0 ≤ ((createSession ("w2-session") SessionType.upload genuinePass 0).checks.getD 0
          dummyCheck).score ∧
    ((createSession ("w2-session") SessionType.upload genuinePass 0).checks.getD 0
        dummyCheck).score ≤ 100 :=
  c10_scores_always_in_range _ (Reaches.created ("w2-session") SessionType.upload genuinePass 0)
    _ (by decide)
